import Mathlib

/-!
Shallow embedding of the security core of the `restapi` service:
the token-lifecycle handlers (`consume_user_otp`, `create_otp`,
`verify_user`, `upsert_user_verification`), the authenticator
(`validate_user_token`, `login_user`), the session-token codec
(`jwt/api.rs`), the per-connection TLS acceptance loop
(`start_core_server`) and the request dispatcher (`handle_request`).

The database is modelled as in-memory lists of rows; each SQL statement
in the source is translated into the corresponding filter/map over those
lists.  Timestamps are UTC instants measured in integer milliseconds;
`chrono::Duration::num_seconds` is truncating division by 1000 toward
zero, exactly as in `chrono`.  A Rust `panic!` (an `unwrap()` on a
fallible value) is modelled by `Option.none` propagation.
-/

namespace RestApi

/-- UTC instant / duration in milliseconds (chrono timestamps are
sub-second precise; one second = 1000). -/
abbrev Millis := Int

/-- `chrono::Duration::num_seconds`: whole seconds of a millisecond
duration, truncated toward zero (`Int.tdiv` is T-division, matching
Rust). -/
def durationNumSeconds (d : Millis) : Int :=
  Int.tdiv d 1000

/-- The expiry test shared by `consume_user_otp.rs` lines 416-445 and
`verify_user.rs` lines 442-480:
`now.signed_duration_since(exp_date).num_seconds() > 0`. -/
def otpExpired (now expDate : Millis) : Bool :=
  durationNumSeconds (now - expDate) > 0

/-- Row of the `users` table (`ModelUser` in
`src/requests/models/user.rs`). -/
structure UserRecord where
  id : Int
  email : String
  password : String
  state : Int
  verified : Int
  role : String
deriving DecidableEq, Repr

/-- Row of the `users_otp` table (`ModelUserOtp` in
`src/requests/models/user_otp.rs`). -/
structure OtpRecord where
  id : Int
  userId : Int
  token : String
  email : String
  state : Int
  expDate : Millis
  consumedDate : Option Millis
deriving DecidableEq, Repr

/-- Row of the `users_verified` table (`ModelUserVerify` in
`src/requests/models/user_verify.rs`). -/
structure VerifyRecord where
  id : Int
  userId : Int
  token : String
  email : String
  state : Int
  expDate : Millis
  verifyDate : Option Millis
deriving DecidableEq, Repr

/-- `get_user_by_id`: `SELECT ... FROM users WHERE users.id = {id} LIMIT 1`. -/
def getUserById (users : List UserRecord) (uid : Int) : Option UserRecord :=
  users.find? (fun u => u.id == uid)

/-- `get_user_otp`: `SELECT ... FROM users_otp WHERE user_id = {uid} AND
token = '{token}' AND email = '{email}' LIMIT 1` (no state filter). -/
def getUserOtp (db : List OtpRecord) (uid : Int) (email token : String) :
    Option OtpRecord :=
  db.find? (fun r => r.userId == uid && r.token == token && r.email == email)

/-- `get_user_verify_by_user_id`: `SELECT ... FROM users_verified WHERE
user_id = {uid} LIMIT 1` — the lookup is keyed on the user id only, the
token is not part of the predicate. -/
def getUserVerifyByUserId (db : List VerifyRecord) (uid : Int) :
    Option VerifyRecord :=
  db.find? (fun r => r.userId == uid)

/-- HTTP header map: list of (name, raw value bytes).  A `HeaderValue`
carries opaque bytes; only visible-ASCII values convert to `&str`. -/
abbrev Headers := List (String × List Nat)

/-- `HeaderMap::get` (first entry with the given name). -/
def headerGet (headers : Headers) (key : String) : Option (List Nat) :=
  (headers.find? (fun p => p.1 == key)).map Prod.snd

/-- The byte predicate of `http::HeaderValue::to_str`: visible ASCII
(32-126) or horizontal tab. -/
def visibleAscii (b : Nat) : Bool :=
  (32 ≤ b && b < 127) || b == 9

/-- `HeaderValue::to_str`: succeeds only when every byte is visible
ASCII; `none` models the `Err` that the source `unwrap()`s. -/
def headerValueToStr (bytes : List Nat) : Option String :=
  if bytes.all visibleAscii then
    some (String.mk (bytes.map Char.ofNat))
  else
    none

/-- Storage operations a handler can perform, for tracing which queries
a request path actually issues. -/
inductive DbOp where
  | readUserById (uid : Int)
  | readUserOtp (uid : Int) (email token : String)
  | updateOtpConsume (uid : Int)
  | updateUserPassword (uid : Int)
deriving DecidableEq, Repr

/-- `validate_user_token` (src/requests/auth/validate_user_token.rs).
Looks the account up by id first; an absent or inactive (`state ≠ 0`)
account is rejected before the header map is consulted.  Only then is
the configured token header read; a missing header is an error, a
non-ASCII header value panics (`to_str().unwrap()` — modelled `none`),
and otherwise the JWT check `jwtValid token user.email` decides.
`jwtValid` abstracts `jwt_api::validate_token` with the configured
decoding key.  The second component of the result lists the storage
operations performed. -/
def validateUserToken (users : List UserRecord)
    (jwtValid : String → String → Bool) (tokenHeaderKey : String)
    (headers : Headers) (userId : Int) :
    Option (Except String String × List DbOp) :=
  let ops := [DbOp.readUserById userId]
  match getUserById users userId with
  | none => some (.error "user lookup failed", ops)
  | some u =>
    if u.state ≠ 0 then
      some (.error "INVALID", ops)
    else
      match headerGet headers tokenHeaderKey with
      | none => some (.error "INVALID", ops)
      | some bytes =>
        match headerValueToStr bytes with
        | none => none
        | some token =>
          if jwtValid token u.email then
            some (.ok token, ops)
          else
            some (.error "INVALID", ops)

/-- Outcome of `login_user` (src/requests/auth/login_user.rs). -/
inductive LoginResponse where
  | badPassword
  | notVerified
  | noUser
  | tokenFailed
  | loggedIn (uid : Int) (token : String)
deriving DecidableEq, Repr

/-- HTTP status of each `login_user` outcome as built in the source. -/
def LoginResponse.status : LoginResponse → Nat
  | .badPassword => 400
  | .notVerified => 401
  | .noUser => 400
  | .tokenFailed => 400
  | .loggedIn _ _ => 201

/-- `login_user` after body deserialization.  The SQL filter is
`users.email = '{email}' AND users.state = 0 LIMIT 1`, so an inactive
account never reaches the password check; then password-hash equality,
the verification gate, and token creation (`mkToken` abstracts
`create_user_token`). -/
def loginUser (users : List UserRecord) (verificationRequired : Bool)
    (argonHash : String → String) (mkToken : Int → String → Option String)
    (email password : String) : LoginResponse :=
  let hash := argonHash password
  let rows := (users.filter (fun u => u.email == email && u.state == 0)).take 1
  match rows with
  | [] => .noUser
  | u :: _ =>
    if u.password ≠ hash then .badPassword
    else if verificationRequired ∧ u.verified ≠ 1 then .notVerified
    else
      match mkToken u.id u.email with
      | none => .tokenFailed
      | some tok => .loggedIn u.id tok

/-- Deserialized body of `POST /user/password/change`
(`ApiReqUserConsumeOtp`). -/
structure ApiReqUserConsumeOtp where
  userId : Int
  email : String
  token : String
  password : String
deriving DecidableEq, Repr

/-- The response branches of `consume_user_otp`, one per `return` in the
source (body deserialization aside). -/
inductive ConsumeOtpResponse where
  | badUserId
  | badEmailEmpty
  | badPasswordEmpty
  | badPasswordShort
  | badTokenShort
  | badTokenLong
  | invalidSessionToken
  | userLookupFailed
  | emailMismatch
  | otpRecordMissing
  | otpTokenMismatch
  | expiredToken
  | consumed (otpId : Int)
  | noRecordsFound
deriving DecidableEq, Repr

/-- HTTP status of each `consume_user_otp` branch as built in the
source: only the consumed branch is 200. -/
def ConsumeOtpResponse.status : ConsumeOtpResponse → Nat
  | .consumed _ => 200
  | _ => 400

/-- The row predicate of the consuming `UPDATE` in `consume_user_otp`
(lines 452-474): `user_id = {uid} AND state = 0 AND token = '{token}'
AND email = '{email}'`. -/
def otpConsumePred (uid : Int) (token email : String) (r : OtpRecord) : Bool :=
  r.userId == uid && r.state == 0 && r.token == token && r.email == email

/-- The consuming `UPDATE ... SET state = 1, consumed_date = '{now}'
... RETURNING ...`: first component is the table afterwards, second the
rows the statement returned. -/
def consumeOtpUpdate (db : List OtpRecord) (uid : Int) (token email : String)
    (now : Millis) : List OtpRecord × List OtpRecord :=
  (db.map (fun r =>
    if otpConsumePred uid token email r then
      { r with state := 1, consumedDate := some now }
    else r),
   (db.filter (otpConsumePred uid token email)).map (fun r =>
    { r with state := 1, consumedDate := some now }))

/-- `consume_user_otp` (src/requests/user/consume_user_otp.rs) after
body deserialization: field validation, pool checkout (whose `unwrap()`
panics when the checkout fails — `poolOk = false` yields `none`),
session-token validation, user fetch, email comparison, OTP fetch,
token comparison, expiry check, the conditional consuming update and
the password update.  Result: response, `users` table, `users_otp`
table, and the storage operations performed; `none` models a panic. -/
def consumeUserOtp (users : List UserRecord) (otpDb : List OtpRecord)
    (jwtValid : String → String → Bool) (tokenHeaderKey : String)
    (headers : Headers) (poolOk : Bool) (argonHash : String → String)
    (req : ApiReqUserConsumeOtp) (now : Millis) :
    Option (ConsumeOtpResponse × List UserRecord × List OtpRecord × List DbOp) :=
  if req.userId < 0 then some (.badUserId, users, otpDb, [])
  else if req.email.length = 0 then some (.badEmailEmpty, users, otpDb, [])
  else if req.password.length = 0 then some (.badPasswordEmpty, users, otpDb, [])
  else if req.password.length < 4 then some (.badPasswordShort, users, otpDb, [])
  else if req.token.length < 4 then some (.badTokenShort, users, otpDb, [])
  else if req.token.length > 256 then some (.badTokenLong, users, otpDb, [])
  else if !poolOk then none
  else
    match validateUserToken users jwtValid tokenHeaderKey headers req.userId with
    | none => none
    | some (.error _, ops0) => some (.invalidSessionToken, users, otpDb, ops0)
    | some (.ok _, ops0) =>
      let ops1 := ops0 ++ [DbOp.readUserById req.userId]
      match getUserById users req.userId with
      | none => some (.userLookupFailed, users, otpDb, ops1)
      | some u =>
        if u.email ≠ req.email ∧ req.email ≠ u.email then
          some (.emailMismatch, users, otpDb, ops1)
        else
          let ops2 := ops1 ++ [DbOp.readUserOtp req.userId req.email req.token]
          match getUserOtp otpDb req.userId req.email req.token with
          | none => some (.otpRecordMissing, users, otpDb, ops2)
          | some otpRec =>
            if req.token ≠ otpRec.token then
              some (.otpTokenMismatch, users, otpDb, ops2)
            else if otpExpired now otpRec.expDate then
              some (.expiredToken, users, otpDb, ops2)
            else
              let updated := consumeOtpUpdate otpDb req.userId req.token req.email now
              let ops3 := ops2 ++ [DbOp.updateOtpConsume req.userId]
              match updated.2.head? with
              | some row =>
                let newUsers := users.map (fun v =>
                  if v.id = req.userId then
                    { v with password := argonHash req.password }
                  else v)
                some (.consumed row.id, newUsers, updated.1,
                  ops3 ++ [DbOp.updateUserPassword req.userId])
              | none => some (.noRecordsFound, users, updated.1, ops3)

/-- The response branches of `verify_user` (query-string parsing
aside). -/
inductive VerifyResponse where
  | badUserId
  | tokenTooShort
  | tokenTooLong
  | userMissing
  | disabledShortCircuit
  | inactive
  | alreadyVerified
  | recordMissing
  | expired
  | verified (uid : Int) (email : String)
  | noRows
deriving DecidableEq, Repr

/-- HTTP status of each `verify_user` branch as built in the source. -/
def VerifyResponse.status : VerifyResponse → Nat
  | .disabledShortCircuit => 200
  | .verified _ _ => 200
  | _ => 400

/-- `verify_user` (src/requests/user/verify_user.rs) after query-param
extraction: id/length validation, user fetch, the
verification-enabled short circuit, active and already-verified gates,
the `users_verified` fetch (keyed on user id only), the expiry check,
then `UPDATE users_verified SET email, state = 1, verify_date WHERE
user_id = {uid} RETURNING ...` and `UPDATE users SET verified = 1`.
The presented `verifyToken` is length-checked but never compared with
the stored token.  Result: response, `users` table, `users_verified`
table. -/
def verifyUser (users : List UserRecord) (vdb : List VerifyRecord)
    (verificationEnabled : Bool) (userId : Int) (verifyToken : String)
    (now : Millis) : VerifyResponse × List UserRecord × List VerifyRecord :=
  if userId ≤ 0 then (.badUserId, users, vdb)
  else if verifyToken.length < 20 then (.tokenTooShort, users, vdb)
  else if verifyToken.length > 256 then (.tokenTooLong, users, vdb)
  else
    match getUserById users userId with
    | none => (.userMissing, users, vdb)
    | some u =>
      if !verificationEnabled then (.disabledShortCircuit, users, vdb)
      else if u.state ≠ 0 then (.inactive, users, vdb)
      else if u.verified ≠ 0 then (.alreadyVerified, users, vdb)
      else
        match getUserVerifyByUserId vdb userId with
        | none => (.recordMissing, users, vdb)
        | some vrec =>
          if otpExpired now vrec.expDate then (.expired, users, vdb)
          else
            let upd := fun (r : VerifyRecord) =>
              { r with email := u.email, state := 1, verifyDate := some now }
            let newVdb := vdb.map (fun r =>
              if r.userId == userId then upd r else r)
            let returning := (vdb.filter (fun r => r.userId == userId)).map upd
            let newUsers := users.map (fun v =>
              if v.id = userId then { v with verified := 1 } else v)
            match returning.head? with
            | some row => (.verified row.userId row.email, newUsers, newVdb)
            | none => (.noRows, newUsers, newVdb)

/-- `upsert_user_verification`
(src/requests/user/upsert_user_verification.rs).  For an existing user
(`isNewUser = false`) it updates `users.email`/`users.verified` and then
updates the `users_verified` row in place: new email, state reset to
0 when verification is enabled, a fresh token, a new expiration
`now + expSeconds`, and `verify_date = NULL`.  For a new user it only
inserts a fresh `users_verified` row.  Returns the new tables and the
token. -/
def upsertUserVerification (users : List UserRecord) (vdb : List VerifyRecord)
    (userId : Int) (email : String) (isNewUser : Bool) (verified : Int)
    (verificationEnabled : Bool) (newToken : String) (freshId : Int)
    (now : Millis) (expSeconds : Int) :
    List UserRecord × List VerifyRecord × String :=
  let userVerifiedValue : Int := if verificationEnabled then 0 else 1
  let expTs : Millis := now + expSeconds * 1000
  let users1 :=
    if isNewUser then users
    else users.map (fun v =>
      if v.id = userId then { v with email := email, verified := verified }
      else v)
  let vdb1 :=
    if isNewUser then
      vdb ++ [{ id := freshId, userId := userId, token := newToken,
                email := email, state := userVerifiedValue,
                expDate := expTs, verifyDate := none }]
    else
      vdb.map (fun r =>
        if r.userId = userId then
          { r with email := email, state := userVerifiedValue,
                   token := newToken, expDate := expTs, verifyDate := none }
        else r)
  (users1, vdb1, newToken)

/-- The claim set signed into a session token (`TokenClaim` in
src/jwt/api.rs): subject, organization label, expiration epoch in
seconds. -/
structure TokenClaim where
  sub : String
  org : String
  exp : Nat
deriving DecidableEq, Repr

/-- Modelled from the spec: the `jsonwebtoken` crate's `encode` output
is external to src, so a signed token is modelled per §4.1/§3 as the
claim set together with the identity of the signing key pair ("asymmetric
digital signature": only the matching key verifies it). -/
structure SignedToken where
  claims : TokenClaim
  sigKey : Nat
deriving DecidableEq, Repr

/-- Error kinds surfaced by the codec (the subset of
`jsonwebtoken::errors::ErrorKind` the source matches on, plus the
subject mismatch used for per-account validation). -/
inductive JwtError where
  | invalid
  | expiredSignature
  | subjectMismatch
deriving DecidableEq, Repr

/-- Modelled from the spec: `jsonwebtoken::decode` with a `Validation`
carrying the expected subject, as configured in `validate_token`
(src/jwt/api.rs lines 145-160).  The crate internals are external to
src; per §4.1 verification fails `Invalid` on a signature that the key
does not match, `ExpiredSignature` on a strict epoch comparison
`now > exp` ("clock skew is not compensated"), and `SubjectMismatch`
when the claim subject differs from the expected subject. -/
def decodeToken (tok : SignedToken) (decodingKey : Nat)
    (expectedSub : String) (now : Nat) : Except JwtError TokenClaim :=
  if tok.sigKey ≠ decodingKey then .error .invalid
  else if now > tok.claims.exp then .error .expiredSignature
  else if tok.claims.sub ≠ expectedSub then .error .subjectMismatch
  else .ok tok.claims

/-- `create_token` (src/jwt/api.rs lines 282-322): builds the claim set
`{sub := uid, org, exp := now + ttl}` (`get_expiration_epoch_time`) and
signs it with the private key. -/
def createToken (uid org : String) (privateKey : Nat) (now ttlSeconds : Nat) :
    SignedToken :=
  { claims := { sub := uid, org := org, exp := now + ttlSeconds },
    sigKey := privateKey }

/-- `validate_token` (src/jwt/api.rs lines 135-186): decodes with the
public key (same key-pair identity as the private key) and the expected
subject, translating each codec error kind into the source's error
string. -/
def validateToken (tok : SignedToken) (uid : String) (decodingKey : Nat)
    (now : Nat) : Except String TokenClaim :=
  match decodeToken tok decodingKey uid now with
  | .ok c => .ok c
  | .error .invalid => .error "token was invalid"
  | .error .expiredSignature => .error "token expired - need to refresh"
  | .error .subjectMismatch => .error "hit an unexpected err"

/-- Per-connection states of the accept loop in
`start_core_server` (src/core/server/start_core_server.rs lines
88-135): a connection is accepted, TLS-handshaken, and on success
served (`http.serve_connection` → dispatcher); on failure the error is
logged and the connection dropped. -/
inductive ConnState where
  | accepted
  | tlsHandshaking
  | established
  | serving
  | handshakeFailed
  | dropped
deriving DecidableEq, Repr

/-- The per-connection step relation of the accept loop: each
constructor is one control-flow edge of the spawned future in
`start_core_server`.  The `Err` arm of `acceptor.accept` only logs and
ends the future, so the only edge out of `handshakeFailed` is the drop. -/
inductive ConnStep : ConnState → ConnState → Prop
  | startHandshake : ConnStep .accepted .tlsHandshaking
  | handshakeOk : ConnStep .tlsHandshaking .established
  | handshakeErr : ConnStep .tlsHandshaking .handshakeFailed
  | serve : ConnStep .established .serving
  | logAndDrop : ConnStep .handshakeFailed .dropped

/-- HTTP methods distinguished by the dispatcher. -/
inductive Method where
  | get
  | post
  | put
  | delete
deriving DecidableEq, Repr

/-- `hyper::Method` `Display`, as interpolated into the fallback body. -/
def Method.show : Method → String
  | .get => "GET"
  | .post => "POST"
  | .put => "PUT"
  | .delete => "DELETE"

/-- Substring containment on character lists (Rust `str::contains`). -/
def charsContain (s pat : List Char) : Bool :=
  (List.range (s.length + 1)).any (fun i => List.isPrefixOf pat (s.drop i))

/-- Rust `str::contains` for string patterns. -/
def strContains (s pat : String) : Bool :=
  charsContain s.data pat.data

/-- Routing targets of the dispatch `match` in `handle_request`
(src/handle_request.rs), one per arm, with the fallback arm split into
its three cases exactly as in the source. -/
inductive RouteTarget where
  | rootPost
  | createUser
  | deleteUser
  | updateUser
  | searchUsers
  | uploadUserData
  | updateUserData
  | searchUserData
  | createOtp
  | consumeOtp
  | login
  | showMetrics
  | favicon
  | verifyUser
  | getUser
  | unsupported
deriving DecidableEq, Repr

/-- The dispatch table of `handle_request`: the `match (method, uri)`
arms, then the fallback's `contains("/user/verify")` and
`contains("/user/")` tests (both GET-only), then the unsupported-route
branch. -/
def matchRoute (m : Method) (path : String) : RouteTarget :=
  match m, path with
  | .post, "/" => .rootPost
  | .post, "/user" => .createUser
  | .delete, "/user" => .deleteUser
  | .put, "/user" => .updateUser
  | .post, "/user/search" => .searchUsers
  | .post, "/user/data" => .uploadUserData
  | .put, "/user/data" => .updateUserData
  | .post, "/user/data/search" => .searchUserData
  | .post, "/user/password/reset" => .createOtp
  | .post, "/user/password/change" => .consumeOtp
  | .post, "/login" => .login
  | .get, "/metrics" => .showMetrics
  | .get, "/favicon.ico" => .favicon
  | _, _ =>
    if m == .get && strContains path "/user/verify" then .verifyUser
    else if m == .get && strContains path "/user/" then .getUser
    else .unsupported

/-- A hyper response, reduced to status code and body text. -/
structure HttpResponse where
  status : Nat
  body : String
deriving DecidableEq, Repr

/-- `hyper::Response::new(body)`: a fresh response carries the default
status, 200 OK. -/
def responseNew (body : String) : HttpResponse :=
  { status := 200, body := body }

/-- The `reason` string of the unsupported-route branch of
`handle_request` (lines 364-368). -/
def unsupportedReason (serverAddress path : String) (m : Method) : String :=
  "unsupported method and uri https://" ++ serverAddress ++ path ++
    " method=" ++ m.show

/-- The unsupported-route response of `handle_request` (lines 359-380):
a JSON body claiming `"status":400` placed into `Response::new`, whose
HTTP status is never changed from the 200 default. -/
def unsupportedRouteResponse (serverAddress path : String) (m : Method) :
    HttpResponse :=
  responseNew ("\x7b\"status\":400,\"reason\":\"" ++
    unsupportedReason serverAddress path m ++ "\"\x7d")

/-! ## Theorems -/

/-- Whatever `validate_user_token` answers, the only storage operation it
performs is the single account lookup by id. -/
theorem validateUserToken_ops (users : List UserRecord)
    (jwtValid : String → String → Bool) (tokenHeaderKey : String)
    (headers : Headers) (uid : Int) (r : Except String String)
    (ops : List DbOp)
    (h : validateUserToken users jwtValid tokenHeaderKey headers uid =
      some (r, ops)) :
    ops = [DbOp.readUserById uid] := by
  cases hu : getUserById users uid with
  | none =>
    simp only [validateUserToken, hu, Option.some.injEq, Prod.mk.injEq] at h
    exact h.2.symm
  | some u =>
    simp only [validateUserToken, hu] at h
    by_cases hs : u.state ≠ 0
    · rw [if_pos hs] at h
      simp only [Option.some.injEq, Prod.mk.injEq] at h
      exact h.2.symm
    · rw [if_neg hs] at h
      cases hg : headerGet headers tokenHeaderKey with
      | none =>
        simp only [hg, Option.some.injEq, Prod.mk.injEq] at h
        exact h.2.symm
      | some bytes =>
        cases ht : headerValueToStr bytes with
        | none =>
          simp only [hg, ht] at h
          exact Option.noConfusion h
        | some token =>
          simp only [hg, ht] at h
          by_cases hj : jwtValid token u.email = true
          · rw [if_pos hj] at h
            simp only [Option.some.injEq, Prod.mk.injEq] at h
            exact h.2.symm
          · rw [if_neg hj] at h
            simp only [Option.some.injEq, Prod.mk.injEq] at h
            exact h.2.symm

/-- C8: once the per-connection TLS handshake has failed, the only
reachable states are `handshakeFailed` itself and `dropped`; in
particular the `serving` state (handing the stream to
`http.serve_connection` and so to the dispatcher) is unreachable, and
the handshake is never retried. -/
theorem C8_handshake_failure_never_served (s : ConnState)
    (h : Relation.ReflTransGen ConnStep .handshakeFailed s) :
    (s = .handshakeFailed ∨ s = .dropped) ∧ s ≠ .serving := by
  have hm : s = .handshakeFailed ∨ s = .dropped := by
    induction h with
    | refl => exact Or.inl rfl
    | tail _ step ih =>
      cases ih with
      | inl hb => subst hb; cases step; exact Or.inr rfl
      | inr hb => subst hb; cases step
  refine ⟨hm, ?_⟩
  rcases hm with h1 | h1 <;> subst h1 <;> intro hcon <;> cases hcon

/-- Witness for C8 at the concrete one-step trace failed → dropped. -/
theorem C8_handshake_failure_never_served_witness :
    (ConnState.dropped = ConnState.handshakeFailed ∨
      ConnState.dropped = ConnState.dropped) ∧
      ConnState.dropped ≠ ConnState.serving :=
  C8_handshake_failure_never_served ConnState.dropped
    (Relation.ReflTransGen.single ConnStep.logAndDrop)

/-- C10: a request matching no dispatch-table entry gets the fallback
response: its HTTP status is the `Response::new` default 200 (never
400), while its JSON body text claims `"status":400`. -/
theorem C10_unsupported_route_status_mismatch (m : Method)
    (path serverAddress : String)
    (h : matchRoute m path = RouteTarget.unsupported) :
    (unsupportedRouteResponse serverAddress path m).status = 200 ∧
      strContains (unsupportedRouteResponse serverAddress path m).body
        "\"status\":400" = true ∧
      (unsupportedRouteResponse serverAddress path m).status ≠ 400 := by
  refine ⟨rfl, ?_, fun hcon => by
    rw [show (unsupportedRouteResponse serverAddress path m).status = 200
      from rfl] at hcon
    omega⟩
  have hdata : (unsupportedRouteResponse serverAddress path m).body.data =
      '\x7b' :: (("\"status\":400,\"reason\":\"".data) ++
        ((unsupportedReason serverAddress path m).data ++ ("\"\x7d").data)) := by
    show (("\x7b\"status\":400,\"reason\":\"" ++
      unsupportedReason serverAddress path m ++ "\"\x7d")).data = _
    rw [String.data_append, String.data_append, List.append_assoc]
    rfl
  unfold strContains charsContain
  rw [List.any_eq_true]
  refine ⟨1, ?_, ?_⟩
  · rw [List.mem_range, hdata]
    simp
  · rw [hdata]
    show List.isPrefixOf ("\"status\":400".data)
      (("\"status\":400,\"reason\":\"".data) ++
        ((unsupportedReason serverAddress path m).data ++ ("\"\x7d").data)) = true
    rw [List.isPrefixOf_iff_prefix]
    exact List.IsPrefix.trans (List.isPrefixOf_iff_prefix.mp (by rfl))
      (List.prefix_append _ _)

/-- Witness for C10 at the unmatched request `POST /nope`. -/
theorem C10_unsupported_route_status_mismatch_witness :
    (unsupportedRouteResponse "0.0.0.0:3000" "/nope" Method.post).status = 200 ∧
      strContains (unsupportedRouteResponse "0.0.0.0:3000" "/nope"
        Method.post).body "\"status\":400" = true ∧
      (unsupportedRouteResponse "0.0.0.0:3000" "/nope"
        Method.post).status ≠ 400 :=
  C10_unsupported_route_status_mismatch Method.post "/nope" "0.0.0.0:3000"
    (by decide)

/-- C5: a session token created by `create_token` for a subject with
lifetime `ttl` validates via `validate_token` against the same subject
at any check instant up to the expiration epoch `now + ttl`, and once
the check instant exceeds the expiration epoch validation fails with
the ExpiredSignature error. -/
theorem C5_jwt_round_trip (sub org : String) (key : Nat) (now ttl t : Nat) :
    (t ≤ now + ttl →
      validateToken (createToken sub org key now ttl) sub key t =
        Except.ok { sub := sub, org := org, exp := now + ttl }) ∧
    (now + ttl < t →
      validateToken (createToken sub org key now ttl) sub key t =
        Except.error "token expired - need to refresh") := by
  constructor
  · intro h
    have h1 : ¬ (t > now + ttl) := by omega
    simp [validateToken, decodeToken, createToken, h1]
  · intro h
    have h1 : t > now + ttl := h
    simp [validateToken, decodeToken, createToken, h1]

/-- Witness for C5: a token for subject "user@example.com" with
ttl 50 issued at epoch 100 validates at 120 and is expired at 151. -/
theorem C5_jwt_round_trip_witness :
    validateToken (createToken "user@example.com" "Org Name" 1 100 50)
        "user@example.com" 1 120 =
      Except.ok { sub := "user@example.com", org := "Org Name", exp := 150 } ∧
    validateToken (createToken "user@example.com" "Org Name" 1 100 50)
        "user@example.com" 1 151 =
      Except.error "token expired - need to refresh" :=
  ⟨(C5_jwt_round_trip "user@example.com" "Org Name" 1 100 50 120).1
      (by decide),
   (C5_jwt_round_trip "user@example.com" "Org Name" 1 100 50 151).2
      (by decide)⟩

/-- C6: on a request whose header map lacks the configured
session-token header, `validate_user_token` fails, and its storage trace
is exactly the single account lookup by id (which precedes the header
check) — no storage operation is performed for the token check itself. -/
theorem C6_missing_header_unauthorized (users : List UserRecord)
    (jwtValid : String → String → Bool) (tokenHeaderKey : String)
    (headers : Headers) (uid : Int)
    (h : headerGet headers tokenHeaderKey = none) :
    ∃ e, validateUserToken users jwtValid tokenHeaderKey headers uid =
      some (Except.error e, [DbOp.readUserById uid]) := by
  cases hu : getUserById users uid with
  | none => exact ⟨"user lookup failed", by simp only [validateUserToken, hu]⟩
  | some u =>
    by_cases hs : u.state ≠ 0
    · exact ⟨"INVALID", by
        simp only [validateUserToken, hu]
        rw [if_pos hs]⟩
    · exact ⟨"INVALID", by
        simp only [validateUserToken, hu]
        rw [if_neg hs, h]⟩

/-- Witness for C6: a request with an empty header map for user id 1. -/
theorem C6_missing_header_unauthorized_witness :
    ∃ e, validateUserToken
        [{ id := 1, email := "user@example.com", password := "h", state := 0,
           verified := 1, role := "user" }]
        (fun _ _ => true) "Bearer" [] 1 =
      some (Except.error e, [DbOp.readUserById 1]) :=
  C6_missing_header_unauthorized _ _ "Bearer" [] 1 rfl

/-- C2: an inactive (or absent) account is rejected by token validation
before the session token is ever inspected — the error is the same for
every header map and every JWT verdict — and login fails for an
inactive account (the login query filters on `users.state = 0`, so the
account behaves as nonexistent). -/
theorem C2_inactive_account_rejected (users : List UserRecord) (uid : Int)
    (em : String)
    (h1 : ∀ u, getUserById users uid = some u → u.state ≠ 0)
    (h2 : ∀ u ∈ users, u.email = em → u.state ≠ 0) :
    (∀ jwtValid tokenHeaderKey headers, ∃ e,
        validateUserToken users jwtValid tokenHeaderKey headers uid =
          some (Except.error e, [DbOp.readUserById uid])) ∧
    (∀ verificationRequired argonHash mkToken password,
        loginUser users verificationRequired argonHash mkToken em password =
          LoginResponse.noUser) := by
  constructor
  · intro jwtValid tokenHeaderKey headers
    cases hu : getUserById users uid with
    | none =>
      exact ⟨"user lookup failed", by simp only [validateUserToken, hu]⟩
    | some u =>
      exact ⟨"INVALID", by
        simp only [validateUserToken, hu]
        rw [if_pos (h1 u hu)]⟩
  · intro verificationRequired argonHash mkToken password
    have hfilter :
        users.filter (fun u => u.email == em && u.state == 0) = [] := by
      rw [List.filter_eq_nil_iff]
      intro u hu
      simp only [Bool.and_eq_true, beq_iff_eq, not_and]
      intro he
      exact h2 u hu he
    simp only [loginUser, hfilter, List.take_nil]

/-- Witness for C2 at a one-account table whose only user is inactive
(`state = 1`). -/
theorem C2_inactive_account_rejected_witness :
    (∀ jwtValid tokenHeaderKey headers, ∃ e,
        validateUserToken
          [{ id := 1, email := "user@example.com", password := "h",
             state := 1, verified := 1, role := "user" }]
          jwtValid tokenHeaderKey headers 1 =
          some (Except.error e, [DbOp.readUserById 1])) ∧
    (∀ verificationRequired argonHash mkToken password,
        loginUser
          [{ id := 1, email := "user@example.com", password := "h",
             state := 1, verified := 1, role := "user" }]
          verificationRequired argonHash mkToken "user@example.com" password =
          LoginResponse.noUser) :=
  C2_inactive_account_rejected _ 1 "user@example.com"
    (by intro u hu; cases hu; decide) (by decide)

/-- C7: the handlers are not panic-free on client-controlled input:
`consume_user_otp` with a syntactically valid body and a session-token
header whose value contains the non-ASCII byte 0x80 reaches
`to_str().unwrap()` inside `validate_user_token` and panics (modelled
`none`) instead of returning a response, for an existing active
account. -/
theorem C7_nonascii_header_panics :
    validateUserToken
        [{ id := 1, email := "user@example.com", password := "h", state := 0,
           verified := 1, role := "user" }]
        (fun _ _ => true) "Bearer" [("Bearer", [128])] 1 = none ∧
    consumeUserOtp
        [{ id := 1, email := "user@example.com", password := "h", state := 0,
           verified := 1, role := "user" }]
        [{ id := 7, userId := 1, token := "TOKEN1234", email :=
           "user@example.com", state := 0, expDate := 10000000,
           consumedDate := none }]
        (fun _ _ => true) "Bearer" [("Bearer", [128])] true (fun p => p)
        { userId := 1, email := "user@example.com", token := "TOKEN1234",
          password := "newpass" } 0 = none :=
  ⟨rfl, rfl⟩

/-- Positivity of truncating division by 1000: the quotient is positive
exactly when the dividend is at least one full second. -/
theorem tdiv_thousand_pos_iff (d : Int) : 0 < Int.tdiv d 1000 ↔ 1000 ≤ d := by
  rcases d with n | n
  · show 0 < Int.ofNat (n / 1000) ↔ (1000 : Int) ≤ Int.ofNat n
    rw [Int.ofNat_eq_natCast, Int.ofNat_eq_natCast]
    omega
  · show 0 < -Int.ofNat ((n + 1) / 1000) ↔ (1000 : Int) ≤ Int.negSucc n
    rw [Int.ofNat_eq_natCast, Int.negSucc_eq]
    omega

/-- C4 counterexample: the claim "consumption at any instant strictly
after the expiration timestamp returns Expired" fails at sub-second
overshoot.  With an OTP record expiring at instant 0, a consume request
at instant 500 (half a second strictly after expiration) succeeds:
`num_seconds` truncates the 500 ms overshoot to 0, which is not `> 0`. -/
theorem C4_subsecond_overshoot_not_expired :
    ((500 : Millis) > 0) ∧ otpExpired 500 0 = false ∧
    (consumeUserOtp
        [{ id := 1, email := "user@example.com", password := "h", state := 0,
           verified := 1, role := "user" }]
        [{ id := 7, userId := 1, token := "TOKEN1234", email :=
           "user@example.com", state := 0, expDate := 0,
           consumedDate := none }]
        (fun t e => t == "TOK" && e == "user@example.com") "Bearer"
        [("Bearer", [84, 79, 75])] true (fun p => p)
        { userId := 1, email := "user@example.com", token := "TOKEN1234",
          password := "newpass" } 500).map (fun x => x.1) =
      some (ConsumeOtpResponse.consumed 7) :=
  ⟨by decide, by decide, rfl⟩

/-- C4 (amended): for both one-time-token kinds the expiry decision
`otpExpired` compares whole truncated seconds, so a token at or before
its expiration instant is never rejected as expired, and a consumption
instant is rejected as expired exactly when it exceeds the expiration
timestamp by at least one full second (at whole-second granularity this
is the strict comparison now > expiration of the original claim). -/
theorem C4_expiry_truncated_seconds (now expDate : Int) :
    (now ≤ expDate → otpExpired now expDate = false) ∧
    (otpExpired now expDate = true ↔ 1000 ≤ now - expDate) := by
  have hiff : otpExpired now expDate = true ↔ 1000 ≤ now - expDate := by
    unfold otpExpired durationNumSeconds
    rw [decide_eq_true_iff]
    exact tdiv_thousand_pos_iff (now - expDate)
  refine ⟨?_, hiff⟩
  intro h
  have h2 : ¬ (1000 ≤ now - expDate) := by omega
  rw [← Bool.not_eq_true, hiff]
  exact h2

/-- Witness for C4 (amended) at the expiry boundary: a token expiring
at instant 1000 checked at instant 1000 is valid, and the expiry
predicate at instant 2000 fires since the overshoot is a full second. -/
theorem C4_expiry_truncated_seconds_witness :
    otpExpired 1000 1000 = false ∧ (otpExpired 2000 1000 = true ↔
      (1000 : Int) ≤ 2000 - 1000) :=
  ⟨(C4_expiry_truncated_seconds 1000 1000).1 (by decide),
   (C4_expiry_truncated_seconds 2000 1000).2⟩

/-- C3 (code divergence): re-issuing a verification token via
`upsert_user_verification` does overwrite the stored token, expiration
and state in place, but a subsequent `verify_user` presenting the PRIOR
token value still verifies successfully: `verify_user` looks the
verification record up by user id only and never compares the presented
token with the stored one.  Concretely: after the upsert stores the
fresh token, no stored row carries the old token any more, yet
verification with the old token returns the 200 success response. -/
theorem C3_stale_verification_token_accepted :
    (verifyUser
        (upsertUserVerification
          [{ id := 1, email := "user@example.com", password := "h", state := 0,
             verified := 1, role := "user" }]
          [{ id := 1, userId := 1, token := "OLD-TOKEN-0123456789",
             email := "user@example.com", state := 0, expDate := 0,
             verifyDate := none }]
          1 "user@example.com" false 0 true "NEW-TOKEN-0123456789" 0 0
          2592000).1
        (upsertUserVerification
          [{ id := 1, email := "user@example.com", password := "h", state := 0,
             verified := 1, role := "user" }]
          [{ id := 1, userId := 1, token := "OLD-TOKEN-0123456789",
             email := "user@example.com", state := 0, expDate := 0,
             verifyDate := none }]
          1 "user@example.com" false 0 true "NEW-TOKEN-0123456789" 0 0
          2592000).2.1
        true 1 "OLD-TOKEN-0123456789" 1000).1 =
      VerifyResponse.verified 1 "user@example.com" ∧
    (∀ r ∈ (upsertUserVerification
        [{ id := 1, email := "user@example.com", password := "h", state := 0,
           verified := 1, role := "user" }]
        [{ id := 1, userId := 1, token := "OLD-TOKEN-0123456789",
           email := "user@example.com", state := 0, expDate := 0,
           verifyDate := none }]
        1 "user@example.com" false 0 true "NEW-TOKEN-0123456789" 0 0
        2592000).2.1, r.token ≠ "OLD-TOKEN-0123456789") :=
  ⟨rfl, by decide⟩

/-- C9: consuming a password-reset token requires a session JWT that
validates for the target user: whenever `validate_user_token` fails for
the request's user id, `consume_user_otp` answers a 400 response, the
`users` and `users_otp` tables are untouched, and no `users_otp` lookup
is ever issued. -/
theorem C9_session_jwt_required_before_otp_lookup
    (users : List UserRecord) (otpDb : List OtpRecord)
    (jwtValid : String → String → Bool) (tokenHeaderKey : String)
    (headers : Headers) (argonHash : String → String)
    (req : ApiReqUserConsumeOtp) (now : Int) (e : String) (ops0 : List DbOp)
    (h : validateUserToken users jwtValid tokenHeaderKey headers req.userId =
      some (Except.error e, ops0)) :
    ∃ resp ops,
      consumeUserOtp users otpDb jwtValid tokenHeaderKey headers true
          argonHash req now = some (resp, users, otpDb, ops) ∧
        resp.status = 400 ∧
        ∀ uid em tok, DbOp.readUserOtp uid em tok ∉ ops := by
  have hops : ops0 = [DbOp.readUserById req.userId] :=
    validateUserToken_ops _ _ _ _ _ _ _ h
  have hnotin : ∀ uid em tok, DbOp.readUserOtp uid em tok ∉ ops0 := by
    intro uid em tok hmem
    rw [hops] at hmem
    simp only [List.mem_singleton] at hmem
    exact DbOp.noConfusion hmem
  by_cases hc1 : req.userId < 0
  · exact ⟨.badUserId, [], by simp [consumeUserOtp, hc1], rfl,
      fun uid em tok hmem => by cases hmem⟩
  by_cases hc2 : req.email.length = 0
  · exact ⟨.badEmailEmpty, [], by simp [consumeUserOtp, hc1, hc2], rfl,
      fun uid em tok hmem => by cases hmem⟩
  by_cases hc3 : req.password.length = 0
  · exact ⟨.badPasswordEmpty, [], by simp [consumeUserOtp, hc1, hc2, hc3], rfl,
      fun uid em tok hmem => by cases hmem⟩
  by_cases hc4 : req.password.length < 4
  · exact ⟨.badPasswordShort, [],
      by simp [consumeUserOtp, hc1, hc2, hc3, hc4], rfl,
      fun uid em tok hmem => by cases hmem⟩
  by_cases hc5 : req.token.length < 4
  · exact ⟨.badTokenShort, [],
      by simp [consumeUserOtp, hc1, hc2, hc3, hc4, hc5], rfl,
      fun uid em tok hmem => by cases hmem⟩
  by_cases hc6 : req.token.length > 256
  · exact ⟨.badTokenLong, [],
      by simp [consumeUserOtp, hc1, hc2, hc3, hc4, hc5, hc6], rfl,
      fun uid em tok hmem => by cases hmem⟩
  exact ⟨.invalidSessionToken, ops0,
    by simp [consumeUserOtp, hc1, hc2, hc3, hc4, hc5, hc6, h], rfl, hnotin⟩

/-- Witness for C9: a consume request with an empty header map (so the
session-token validation fails) for an existing active user. -/
theorem C9_session_jwt_required_before_otp_lookup_witness :
    ∃ resp ops,
      consumeUserOtp
          [{ id := 1, email := "user@example.com", password := "h", state := 0,
             verified := 1, role := "user" }]
          [{ id := 7, userId := 1, token := "TOKEN1234",
             email := "user@example.com", state := 0, expDate := 10000000,
             consumedDate := none }]
          (fun _ _ => true) "Bearer" [] true (fun p => p)
          { userId := 1, email := "user@example.com", token := "TOKEN1234",
            password := "newpass" } 0 =
        some (resp,
          [{ id := 1, email := "user@example.com", password := "h", state := 0,
             verified := 1, role := "user" }],
          [{ id := 7, userId := 1, token := "TOKEN1234",
             email := "user@example.com", state := 0, expDate := 10000000,
             consumedDate := none }], ops) ∧
        resp.status = 400 ∧
        ∀ uid em tok, DbOp.readUserOtp uid em tok ∉ ops :=
  C9_session_jwt_required_before_otp_lookup _ _ _ "Bearer" [] _ _ 0 "INVALID"
    [DbOp.readUserById 1] rfl

/-- The consuming update keeps every row's key fields (user id, token,
email, expiration): only `state` and `consumed_date` change. -/
theorem consumeOtpUpdate_mem (db : List OtpRecord) (uid : Int)
    (token email : String) (now : Int) (r : OtpRecord) (hr : r ∈ db) :
    ∃ s ∈ (consumeOtpUpdate db uid token email now).1,
      s.userId = r.userId ∧ s.token = r.token ∧ s.email = r.email ∧
        s.expDate = r.expDate := by
  refine ⟨if otpConsumePred uid token email r then
    { r with state := 1, consumedDate := some now } else r, ?_, ?_⟩
  · exact List.mem_map_of_mem _ hr
  · by_cases hp : otpConsumePred uid token email r = true
    · rw [if_pos hp]
      exact ⟨rfl, rfl, rfl, rfl⟩
    · rw [if_neg hp]
      exact ⟨rfl, rfl, rfl, rfl⟩

/-- After the consuming update, no row satisfies the consume predicate
any more: a matched row got `state = 1`, an unmatched row already
failed the predicate. -/
theorem consumeOtpUpdate_filter_nil (db : List OtpRecord) (uid : Int)
    (token email : String) (now : Int) :
    ((consumeOtpUpdate db uid token email now).1).filter
      (otpConsumePred uid token email) = [] := by
  unfold consumeOtpUpdate
  rw [List.filter_map]
  have hcomp : (otpConsumePred uid token email ∘ fun r =>
      if otpConsumePred uid token email r then
        { r with state := 1, consumedDate := some now } else r) =
      fun _ => false := by
    funext r
    by_cases hp : otpConsumePred uid token email r = true
    · simp only [Function.comp_apply, if_pos hp]
      simp [otpConsumePred]
    · simp only [Function.comp_apply, if_neg hp]
      exact Bool.eq_false_iff.mpr hp
  rw [hcomp]
  simp

/-- `get_user_by_id` commutes with an id-preserving row rewrite. -/
theorem getUserById_map (users : List UserRecord) (uid : Int)
    (f : UserRecord → UserRecord) (hid : ∀ v, (f v).id = v.id) :
    getUserById (users.map f) uid = (getUserById users uid).map f := by
  unfold getUserById
  rw [List.find?_map]
  have hp : ((fun u : UserRecord => u.id == uid) ∘ f) =
      (fun u : UserRecord => u.id == uid) := by
    funext v
    simp [Function.comp, hid]
  rw [hp]

/-- `validate_user_token` only reads a user's id, state and email, so
a row rewrite preserving those three fields (such as the password
update of `consume_user_otp`) does not change its verdict. -/
theorem validateUserToken_map (users : List UserRecord)
    (f : UserRecord → UserRecord) (hid : ∀ v, (f v).id = v.id)
    (hemail : ∀ v, (f v).email = v.email)
    (hstate : ∀ v, (f v).state = v.state)
    (jwtValid : String → String → Bool) (tokenHeaderKey : String)
    (headers : Headers) (uid : Int) :
    validateUserToken (users.map f) jwtValid tokenHeaderKey headers uid =
      validateUserToken users jwtValid tokenHeaderKey headers uid := by
  unfold validateUserToken
  rw [getUserById_map users uid f hid]
  cases getUserById users uid with
  | none => rfl
  | some u =>
    simp only [Option.map_some']
    rw [hstate u, hemail u]

/-- On a `users_otp` table in which no row satisfies the consume
predicate for the request's (user id, token, email) tuple,
`consume_user_otp` can never answer the 200 consumed response: the
conditional update returns no rows. -/
theorem consumeUserOtp_no_success_of_filter_nil (users : List UserRecord)
    (otpDb : List OtpRecord) (jwtValid : String → String → Bool)
    (tokenHeaderKey : String) (headers : Headers)
    (argonHash : String → String) (req : ApiReqUserConsumeOtp) (now : Int)
    (hfil : otpDb.filter (otpConsumePred req.userId req.token req.email) = []) :
    ∀ r2 users2 otp2 ops2 i,
      consumeUserOtp users otpDb jwtValid tokenHeaderKey headers true
          argonHash req now = some (r2, users2, otp2, ops2) →
        r2 ≠ ConsumeOtpResponse.consumed i := by
  intro r2 users2 otp2 ops2 i h hcon
  subst hcon
  by_cases hc1 : req.userId < 0
  · simp [consumeUserOtp, hc1] at h
  by_cases hc2 : req.email.length = 0
  · simp [consumeUserOtp, hc1, hc2] at h
  by_cases hc3 : req.password.length = 0
  · simp [consumeUserOtp, hc1, hc2, hc3] at h
  by_cases hc4 : req.password.length < 4
  · simp [consumeUserOtp, hc1, hc2, hc3, hc4] at h
  by_cases hc5 : req.token.length < 4
  · simp [consumeUserOtp, hc1, hc2, hc3, hc4, hc5] at h
  by_cases hc6 : req.token.length > 256
  · simp [consumeUserOtp, hc1, hc2, hc3, hc4, hc5, hc6] at h
  cases hval : validateUserToken users jwtValid tokenHeaderKey headers
      req.userId with
  | none => simp [consumeUserOtp, hc1, hc2, hc3, hc4, hc5, hc6, hval] at h
  | some p =>
    obtain ⟨res, ops0⟩ := p
    cases res with
    | error e =>
      simp [consumeUserOtp, hc1, hc2, hc3, hc4, hc5, hc6, hval] at h
    | ok tokenStr =>
      cases hu : getUserById users req.userId with
      | none =>
        simp [consumeUserOtp, hc1, hc2, hc3, hc4, hc5, hc6, hval, hu] at h
      | some u =>
        by_cases hem : u.email ≠ req.email ∧ req.email ≠ u.email
        · simp [consumeUserOtp, hc1, hc2, hc3, hc4, hc5, hc6, hval, hu,
            hem] at h
        cases hotp : getUserOtp otpDb req.userId req.email req.token with
        | none =>
          simp [consumeUserOtp, hc1, hc2, hc3, hc4, hc5, hc6, hval, hu, hem,
            hotp] at h
        | some otpRec =>
          by_cases htok : req.token ≠ otpRec.token
          · simp [consumeUserOtp, hc1, hc2, hc3, hc4, hc5, hc6, hval, hu,
              hem, hotp, htok] at h
          by_cases hexp : otpExpired now otpRec.expDate = true
          · simp [consumeUserOtp, hc1, hc2, hc3, hc4, hc5, hc6, hval, hu,
              hem, hotp, htok, hexp] at h
          have hret : (consumeOtpUpdate otpDb req.userId req.token req.email
              now).2 = [] := by
            unfold consumeOtpUpdate
            rw [hfil]
            rfl
          simp [consumeUserOtp, hc1, hc2, hc3, hc4, hc5, hc6, hval, hu, hem,
            hotp, htok, hexp, hret] at h

/-- C1: an issued password-reset token is consumable at most once.  If a
`consume_user_otp` call succeeds (200, issued→consumed transition), then
on the resulting state a second call with the same (user id, email,
token) tuple can never succeed again, and — as long as the token has
not expired by the time of the second call — it answers exactly the
no-records branch (the source's 400 "no records found in db", the
AlreadyConsumed outcome): the update predicate requires `state = 0` and
the first call set `state = 1`. -/
theorem C1_otp_consumed_at_most_once (users : List UserRecord)
    (otpDb : List OtpRecord) (jwtValid : String → String → Bool)
    (tokenHeaderKey : String) (headers : Headers)
    (argonHash : String → String) (req : ApiReqUserConsumeOtp)
    (now1 now2 : Int) (otpId : Int) (users1 : List UserRecord)
    (otp1 : List OtpRecord) (ops1 : List DbOp)
    (h1 : consumeUserOtp users otpDb jwtValid tokenHeaderKey headers true
        argonHash req now1 =
      some (ConsumeOtpResponse.consumed otpId, users1, otp1, ops1)) :
    (∀ r2 users2 otp2 ops2 i,
        consumeUserOtp users1 otp1 jwtValid tokenHeaderKey headers true
            argonHash req now2 = some (r2, users2, otp2, ops2) →
          r2 ≠ ConsumeOtpResponse.consumed i) ∧
    ((∀ r ∈ otp1, r.userId = req.userId → r.token = req.token →
        r.email = req.email → otpExpired now2 r.expDate = false) →
      ∃ otp2 ops2,
        consumeUserOtp users1 otp1 jwtValid tokenHeaderKey headers true
            argonHash req now2 =
          some (ConsumeOtpResponse.noRecordsFound, users1, otp2, ops2)) := by
  by_cases hc1 : req.userId < 0
  · simp [consumeUserOtp, hc1] at h1
  by_cases hc2 : req.email.length = 0
  · simp [consumeUserOtp, hc1, hc2] at h1
  by_cases hc3 : req.password.length = 0
  · simp [consumeUserOtp, hc1, hc2, hc3] at h1
  by_cases hc4 : req.password.length < 4
  · simp [consumeUserOtp, hc1, hc2, hc3, hc4] at h1
  by_cases hc5 : req.token.length < 4
  · simp [consumeUserOtp, hc1, hc2, hc3, hc4, hc5] at h1
  by_cases hc6 : req.token.length > 256
  · simp [consumeUserOtp, hc1, hc2, hc3, hc4, hc5, hc6] at h1
  cases hval : validateUserToken users jwtValid tokenHeaderKey headers
      req.userId with
  | none => simp [consumeUserOtp, hc1, hc2, hc3, hc4, hc5, hc6, hval] at h1
  | some p =>
    obtain ⟨res, ops0⟩ := p
    cases res with
    | error e =>
      simp [consumeUserOtp, hc1, hc2, hc3, hc4, hc5, hc6, hval] at h1
    | ok tokenStr =>
      cases hu : getUserById users req.userId with
      | none =>
        simp [consumeUserOtp, hc1, hc2, hc3, hc4, hc5, hc6, hval, hu] at h1
      | some u =>
        by_cases hem : u.email ≠ req.email ∧ req.email ≠ u.email
        · simp [consumeUserOtp, hc1, hc2, hc3, hc4, hc5, hc6, hval, hu,
            hem] at h1
        cases hotp : getUserOtp otpDb req.userId req.email req.token with
        | none =>
          simp [consumeUserOtp, hc1, hc2, hc3, hc4, hc5, hc6, hval, hu,
            hem, hotp] at h1
        | some otpRec =>
          by_cases htok : req.token ≠ otpRec.token
          · simp [consumeUserOtp, hc1, hc2, hc3, hc4, hc5, hc6, hval, hu,
              hem, hotp, htok] at h1
          by_cases hexp1 : otpExpired now1 otpRec.expDate = true
          · simp [consumeUserOtp, hc1, hc2, hc3, hc4, hc5, hc6, hval, hu,
              hem, hotp, htok, hexp1] at h1
          cases hret : (consumeOtpUpdate otpDb req.userId req.token req.email
              now1).2.head? with
          | none =>
            simp [consumeUserOtp, hc1, hc2, hc3, hc4, hc5, hc6, hval, hu,
              hem, hotp, htok, hexp1, hret] at h1
          | some row =>
            simp [consumeUserOtp, hc1, hc2, hc3, hc4, hc5, hc6, hval,
              hu, hem, hotp, htok, hexp1, hret] at h1
            obtain ⟨hrow, husers1, hotp1, hops1⟩ := h1
            have hfil1 : otp1.filter
                (otpConsumePred req.userId req.token req.email) = [] := by
              rw [← hotp1]
              exact consumeOtpUpdate_filter_nil otpDb req.userId req.token
                req.email now1
            refine ⟨consumeUserOtp_no_success_of_filter_nil users1 otp1
              jwtValid tokenHeaderKey headers argonHash req now2 hfil1, ?_⟩
            intro hexpAll
            have hid : ∀ v : UserRecord, (if v.id = req.userId then
                { id := v.id, email := v.email,
                  password := argonHash req.password, state := v.state,
                  verified := v.verified, role := v.role } else v).id =
                  v.id := by
              intro v
              by_cases hv : v.id = req.userId
              · simp [hv]
              · simp [hv]
            have hemailF : ∀ v : UserRecord, (if v.id = req.userId then
                { id := v.id, email := v.email,
                  password := argonHash req.password, state := v.state,
                  verified := v.verified, role := v.role } else v).email =
                  v.email := by
              intro v
              by_cases hv : v.id = req.userId
              · simp [hv]
              · simp [hv]
            have hstateF : ∀ v : UserRecord, (if v.id = req.userId then
                { id := v.id, email := v.email,
                  password := argonHash req.password, state := v.state,
                  verified := v.verified, role := v.role } else v).state =
                  v.state := by
              intro v
              by_cases hv : v.id = req.userId
              · simp [hv]
              · simp [hv]
            have hval2 : validateUserToken users1 jwtValid tokenHeaderKey
                headers req.userId = some (.ok tokenStr, ops0) := by
              rw [← husers1,
                validateUserToken_map users _ hid hemailF hstateF]
              exact hval
            have hu2 : getUserById users1 req.userId = some
                (if u.id = req.userId then
                  { id := u.id, email := u.email,
                    password := argonHash req.password, state := u.state,
                    verified := u.verified, role := u.role } else u) := by
              rw [← husers1, getUserById_map users req.userId _ hid, hu]
              rfl
            have hem2 : ¬((if u.id = req.userId then
                { id := u.id, email := u.email,
                  password := argonHash req.password, state := u.state,
                  verified := u.verified, role := u.role } else u).email ≠
                    req.email ∧
                req.email ≠ (if u.id = req.userId then
                  { id := u.id, email := u.email,
                    password := argonHash req.password, state := u.state,
                    verified := u.verified, role := u.role } else u).email) := by
              rw [hemailF u]
              exact hem
            have hex : ∃ r ∈ otpDb,
                otpConsumePred req.userId req.token req.email r = true := by
              rcases hnil : otpDb.filter
                  (otpConsumePred req.userId req.token req.email) with
                  _ | ⟨r, rest⟩
              · exfalso
                have hz : (consumeOtpUpdate otpDb req.userId req.token
                    req.email now1).2 = [] := by
                  unfold consumeOtpUpdate
                  rw [hnil]
                  rfl
                rw [hz] at hret
                cases hret
              · have hrmem : r ∈ otpDb.filter
                    (otpConsumePred req.userId req.token req.email) := by
                  rw [hnil]
                  exact List.mem_cons_self r rest
                rw [List.mem_filter] at hrmem
                exact ⟨r, hrmem.1, hrmem.2⟩
            obtain ⟨r, hrdb, hrpred⟩ := hex
            have hrparts := hrpred
            simp only [otpConsumePred, Bool.and_eq_true, beq_iff_eq]
              at hrparts
            obtain ⟨⟨⟨hruid, hrstate⟩, hrtok⟩, hrem⟩ := hrparts
            obtain ⟨s, hsmem, hsuid, hstok, hsem, hsexp⟩ :=
              consumeOtpUpdate_mem otpDb req.userId req.token req.email now1
                r hrdb
            rw [hotp1] at hsmem
            have hfindSome : (getUserOtp otp1 req.userId req.email
                req.token).isSome := by
              unfold getUserOtp
              rw [List.find?_isSome]
              exact ⟨s, hsmem, by
                simp [hsuid, hstok, hsem, hruid, hrtok, hrem]⟩
            cases hotp2 : getUserOtp otp1 req.userId req.email req.token with
            | none =>
              rw [hotp2] at hfindSome
              simp at hfindSome
            | some r2 =>
              have hp2 := hotp2
              unfold getUserOtp at hp2
              have hpred2 := List.find?_some hp2
              simp only [Bool.and_eq_true, beq_iff_eq] at hpred2
              obtain ⟨⟨hr2uid, hr2tok⟩, hr2em⟩ := hpred2
              have hr2mem : r2 ∈ otp1 := List.mem_of_find?_eq_some hp2
              have hexp2 : otpExpired now2 r2.expDate = false :=
                hexpAll r2 hr2mem hr2uid hr2tok hr2em
              have htok2 : ¬ (req.token ≠ r2.token) := by
                rw [hr2tok]
                simp
              have hret2 : (consumeOtpUpdate otp1 req.userId req.token
                  req.email now2).2 = [] := by
                unfold consumeOtpUpdate
                rw [hfil1]
                rfl
              refine ⟨(consumeOtpUpdate otp1 req.userId req.token req.email
                  now2).1,
                ops0 ++ [DbOp.readUserById req.userId,
                  DbOp.readUserOtp req.userId req.email req.token,
                  DbOp.updateOtpConsume req.userId], ?_⟩
              simp [consumeUserOtp, hc1, hc2, hc3, hc4, hc5, hc6, hval2, hu2,
                hem2, hotp2, htok2, hexp2, hret2]

set_option maxRecDepth 10000

/-- Witness for C1: after a successful consume at instant 0 over a
one-user, one-token store, the second consume with the same tuple at
instant 1000 cannot succeed and answers the no-records branch. -/
theorem C1_otp_consumed_at_most_once_witness :
    (∀ r2 users2 otp2 ops2 i,
        consumeUserOtp
            [{ id := 1, email := "user@example.com", password := "newpass",
               state := 0, verified := 1, role := "user" }]
            [{ id := 7, userId := 1, token := "TOKEN1234",
               email := "user@example.com", state := 1, expDate := 10000000,
               consumedDate := some 0 }]
            (fun t e => t == "TOK" && e == "user@example.com") "Bearer"
            [("Bearer", [84, 79, 75])] true (fun p => p)
            { userId := 1, email := "user@example.com", token := "TOKEN1234",
              password := "newpass" } 1000 =
          some (r2, users2, otp2, ops2) →
        r2 ≠ ConsumeOtpResponse.consumed i) ∧
    ((∀ r ∈ [({ id := 7,
                userId := 1,
                token := "TOKEN1234",
                email := "user@example.com",
                state := 1,
                expDate := 10000000,
                consumedDate := some 0 } : OtpRecord)],
        r.userId = (1 : Int) → r.token = "TOKEN1234" →
          r.email = "user@example.com" →
            otpExpired 1000 r.expDate = false) →
      ∃ otp2 ops2,
        consumeUserOtp
            [{ id := 1, email := "user@example.com", password := "newpass",
               state := 0, verified := 1, role := "user" }]
            [{ id := 7, userId := 1, token := "TOKEN1234",
               email := "user@example.com", state := 1, expDate := 10000000,
               consumedDate := some 0 }]
            (fun t e => t == "TOK" && e == "user@example.com") "Bearer"
            [("Bearer", [84, 79, 75])] true (fun p => p)
            { userId := 1, email := "user@example.com", token := "TOKEN1234",
              password := "newpass" } 1000 =
          some (ConsumeOtpResponse.noRecordsFound,
            [{ id := 1, email := "user@example.com", password := "newpass",
               state := 0, verified := 1, role := "user" }], otp2, ops2)) :=
  (C1_otp_consumed_at_most_once
    [{ id := 1, email := "user@example.com", password := "h", state := 0,
       verified := 1, role := "user" }]
    [{ id := 7, userId := 1, token := "TOKEN1234",
       email := "user@example.com", state := 0, expDate := 10000000,
       consumedDate := none }]
    (fun t e => t == "TOK" && e == "user@example.com") "Bearer"
    [("Bearer", [84, 79, 75])] (fun p => p)
    { userId := 1, email := "user@example.com", token := "TOKEN1234",
      password := "newpass" } 0 1000 7
    [{ id := 1, email := "user@example.com", password := "newpass",
       state := 0, verified := 1, role := "user" }]
    [{ id := 7, userId := 1, token := "TOKEN1234",
       email := "user@example.com", state := 1, expDate := 10000000,
       consumedDate := some 0 }]
    [DbOp.readUserById 1, DbOp.readUserById 1,
     DbOp.readUserOtp 1 "user@example.com" "TOKEN1234",
     DbOp.updateOtpConsume 1, DbOp.updateUserPassword 1] rfl)

end RestApi









